import Mathlib

/-!
Shallow embedding of the word2vec module (src/neural_models/word2vec.py):
the streaming window pair generator generate_words, the batch helper
generate_batch, the subsampling reader SampledReader, and the Word2Vec
class (its initializer, the training-graph builder and the training loop).
External tensorflow operations are an out-of-scope collaborator; only the
arguments this module passes to them are modelled. Documents are lists of
strings, as in the worked example of the specification.
-/

/-- A Python value that can occur in the sliding window of generate_words:
either a plain word (a string) or an (index, word) tuple. The tuples arise
because the steady-state loop iterates enumerate(doc) and appends the loop
variable, an (index, word) pair, to the window rather than the bare word. -/
inductive PyVal where
  | str : String → PyVal
  | tup : Nat → String → PyVal
deriving DecidableEq, Repr

/-- A yielded (center, context) pair. -/
abbrev WordPair := PyVal × PyVal

/-- Result of running a Python generator to exhaustion: the pairs it yielded
before terminating, and the uncaught exception when one was raised. -/
structure GenResult where
  pairs : List WordPair
  error : Option String
deriving DecidableEq, Repr

/-- deque append with maxlen: when the deque is full, appending on the right
evicts the oldest (leftmost) element. -/
def dequeAppend (maxlen : Nat) (w : List PyVal) (x : PyVal) : List PyVal :=
  if w.length < maxlen then w ++ [x] else w.drop 1 ++ [x]

/-- Subscripting window[i] on the deque for nonnegative i: IndexError when i
is out of range. -/
def pyIndex (w : List PyVal) (i : Nat) : Except String PyVal :=
  match w[i]? with
  | some v => Except.ok v
  | none => Except.error "IndexError"

/-- Evaluate the yield expression (window[i], window[j]): the left subscript
is evaluated first, and either failing subscript raises IndexError. -/
def emitAt (w : List PyVal) (ij : Nat × Nat) : Except String WordPair :=
  match pyIndex w ij.1, pyIndex w ij.2 with
  | Except.ok a, Except.ok b => Except.ok (a, b)
  | Except.error e, _ => Except.error e
  | _, Except.error e => Except.error e

/-- Yield the window pairs at the given index pairs in order, stopping at the
first raised exception. -/
def emitList (w : List PyVal) : List (Nat × Nat) → GenResult
  | [] => ⟨[], none⟩
  | ij :: rest =>
    match emitAt w ij with
    | Except.ok pr =>
      let r := emitList w rest
      ⟨pr :: r.pairs, r.error⟩
    | Except.error e => ⟨[], some e⟩

/-- Index pairs of the leading-edge loops of generate_words:
for i in range(span): for j in range(i+span): yield (window[i], window[j]).
Note that j ranges over [0, i+span), which contains j = i. -/
def leadingIdx (span : Nat) : List (Nat × Nat) :=
  ((List.range span).map fun i =>
    (List.range (i + span)).map fun j => (i, j)).flatten

/-- Index pairs of one steady-state iteration of generate_words:
for i in range(window_size): if i is not center: yield (window[center], window[i]). -/
def steadyIdx (windowSize center : Nat) : List (Nat × Nat) :=
  (List.range windowSize).filterMap fun i =>
    if i = center then none else some (center, i)

/-- Index pairs of the trailing-edge loops of generate_words:
for i in range(span+1, window_size): for j in range(i-span, window_size):
yield (window[i], window[j]). Again j = i is inside the j range. -/
def trailingIdx (span windowSize : Nat) : List (Nat × Nat) :=
  ((List.range' (span + 1) (windowSize - (span + 1))).map fun i =>
    (List.range' (i - span) (windowSize - (i - span))).map fun j => (i, j)).flatten

/-- Steady-state loop of generate_words: for word in enumerate(doc), yield
the window pairs around the center slot, then window.append(word) — the
appended value is the (index, word) tuple produced by enumerate, and the loop
runs over the whole document, not only over the words beyond the primed
window. Returns the emitted pairs and the final window. -/
def steadyLoop (windowSize center : Nat) :
    List PyVal → List (Nat × String) → GenResult × List PyVal
  | w, [] => (⟨[], none⟩, w)
  | w, (idx, word) :: rest =>
    let r := emitList w (steadyIdx windowSize center)
    match r.error with
    | some _ => (r, w)
    | none =>
      let w2 := dequeAppend windowSize w (PyVal.tup idx word)
      let (r2, w3) := steadyLoop windowSize center w2 rest
      (⟨r.pairs ++ r2.pairs, r2.error⟩, w3)

/-- Sequence two generator segments: when the first raised, the second never
runs; otherwise the yielded pairs are concatenated. -/
def seqGen (a b : GenResult) : GenResult :=
  match a.error with
  | some _ => a
  | none => ⟨a.pairs ++ b.pairs, b.error⟩

/-- generate_words on a single document: prime the window with the first
window_size words (fewer when the document is shorter), run the leading-edge
loops, the steady-state loop over enumerate(doc), and the trailing-edge
loops on the final window. window_size = 2*span + 1 and center = span. -/
def genDoc (span : Nat) (doc : List String) : GenResult :=
  let windowSize := 2 * span + 1
  let center := span
  let w0 := (doc.take windowSize).map PyVal.str
  let leading := emitList w0 (leadingIdx span)
  let sl := steadyLoop windowSize center w0 doc.enum
  let trailing := emitList sl.2 (trailingIdx span windowSize)
  seqGen leading (seqGen sl.1 trailing)

/-- generate_words over a corpus: documents are processed in order and an
exception raised inside one document aborts the whole generator. -/
def generate_words (docs : List (List String)) (span : Nat) : GenResult :=
  match docs with
  | [] => ⟨[], none⟩
  | d :: rest => seqGen (genDoc span d) (generate_words rest span)

/-- Follows the words of the specification (its testable properties): the
valid (center, context) pairs of a document are exactly the ordered pairs of
words at positions (i, j) with i distinct from j and absolute difference at
most span, enumerated in document order. This is the brute-force reference
the source generator is compared against. -/
def specPairs (doc : List String) (span : Nat) : List (String × String) :=
  ((List.range doc.length).map fun i =>
    (List.range doc.length).filterMap fun j =>
      if i ≠ j ∧ i - j ≤ span ∧ j - i ≤ span then
        match doc[i]?, doc[j]? with
        | some a, some b => some (a, b)
        | _, _ => none
      else none).flatten

/-- Local names of generate_batch that are bound when the statement
batch = islice(word_gen, 0, batch) executes. The name batch is a local of
the function (it is assigned in the body) but it is read on the right-hand
side before that assignment completes, so its lookup raises
UnboundLocalError on every call. -/
def generateBatchBoundLocals : List String :=
  ["docs", "span", "batch_size", "word_gen"]

/-- generate_batch from the source: builds the pair generator and then
evaluates islice(word_gen, 0, batch); since the local name batch is unbound
at that point, every call raises. The ok branch (what the islice would
produce if the name resolved to the intended bound) is unreachable. -/
def generate_batch (docs : List (List String)) (span batch_size : Nat) :
    Except String (List WordPair) :=
  if "batch" ∈ generateBatchBoundLocals then
    Except.ok ((generate_words docs span).pairs.take batch_size)
  else
    Except.error "UnboundLocalError: local variable batch referenced before assignment"

/-- Instance state of SampledReader: the attributes created by __init__.
The private attributes _word2idx and _counts that count_words writes to are
never created, which the embedding of count_words accounts for. -/
structure ReaderState where
  subsample : ℚ
  fit : Bool
  counts : List Nat
  word2idx : List (String × Nat)
  vocab_size : Nat
deriving DecidableEq, Repr

/-- SampledReader.__init__: subsample threshold stored, fitted flag false,
empty counts and word index, vocabulary size zero. -/
def readerInit (t : ℚ) : ReaderState :=
  ⟨t, false, [], [], 0⟩

/-- SampledReader.count_words: builds a Counter over all words and then, for
each distinct word, assigns to self._word2idx and self._counts — attributes
that do not exist (init created word2idx and counts), so the first loop
iteration raises AttributeError. The loop body runs iff the corpus contains
at least one word; on an all-empty corpus the method completes, setting
vocab_size from the (empty) public counts list and the fitted flag. -/
def count_words (st : ReaderState) (docs : List (List String)) :
    Except String ReaderState :=
  if (docs.map id).flatten.isEmpty then
    Except.ok { st with fit := true, vocab_size := st.counts.length }
  else
    Except.error "AttributeError: _word2idx"

/-- The count used by SampledReader._include: counts[word2idx[word]] when
the word is in the index, otherwise the default 1 for unseen words. -/
def includeCount (st : ReaderState) (w : String) : Except String Nat :=
  match st.word2idx.lookup w with
  | some i =>
    match st.counts[i]? with
    | some c => Except.ok c
    | none => Except.error "IndexError"
  | none => Except.ok 1

/-- Keep probability computed by SampledReader._include for a word of count
c under subsample threshold t, as a real number:
p = sqrt(c / t + 1) * t / c. -/
noncomputable def keepProb (c t : ℝ) : ℝ :=
  Real.sqrt (c / t + 1) * t / c

/-- The comparison random() < p of _include, decided exactly over the
rationals: for a count c ≥ 1 and threshold t > 0 the probability p is
nonnegative, and a draw u satisfies u < p iff u < 0 or u² < p², where
p² = (c/t + 1) · t²/c², i.e. u² · c² < t · c + t². The lemma
keepDecision_eq_keepProb below proves this agrees with keepProb. -/
def keepDecision (c : Nat) (t u : ℚ) : Bool :=
  if u < 0 then true
  else decide (u ^ 2 * (c : ℚ) ^ 2 < t * (c : ℚ) + t ^ 2)

/-- SampledReader.read: iterates every word of every document in order and
yields word number k iff the k-th uniform draw falls below its keep
probability; one draw is consumed per word. The source performs no check of
the fitted flag before reading. An IndexError from the count lookup aborts
the stream. -/
def readAux (st : ReaderState) (draws : Nat → ℚ) :
    List String → Nat → Except String (List String)
  | [], _ => Except.ok []
  | w :: rest, k =>
    match includeCount st w with
    | Except.error e => Except.error e
    | Except.ok c =>
      match readAux st draws rest (k + 1) with
      | Except.error e => Except.error e
      | Except.ok tail =>
        Except.ok (if keepDecision c st.subsample (draws k) then w :: tail else tail)

/-- SampledReader.read over a corpus, with the stream of uniform draws made
explicit. -/
def read (st : ReaderState) (docs : List (List String)) (draws : Nat → ℚ) :
    Except String (List String) :=
  readAux st draws (docs.map id).flatten 0

/-- A word of count c is always kept by the subsampling filter iff every
uniform draw in [0, 1) falls below its keep probability. -/
def alwaysKept (c t : ℝ) : Prop :=
  ∀ u : ℝ, 0 ≤ u → u < 1 → u < keepProb c t

/-- Instance state of Word2Vec as its methods would leave it: the attributes
of __init__ plus hasSess recording whether the attribute _sess exists. No
method of the class ever assigns _sess. -/
structure W2V where
  window_size : Nat
  subsample : ℚ
  neg_sample : Nat
  hdim : Nat
  lr : ℚ
  hasSess : Bool
deriving DecidableEq, Repr

/-- Names visible when Word2Vec.__init__ executes the statement
self._subsample = sample: the parameters of __init__ and the module-level
globals (imports included). The name sample is none of them. -/
def w2vInitScope : List String :=
  ["self", "window_size", "subsample", "neg_sample", "hidden_dim",
   "options", "generate_words", "generate_batch", "SampledReader", "Word2Vec",
   "Counter", "deque", "islice", "math", "np", "random", "tf"]

/-- Word2Vec.__init__: assigns self._window_size, then executes
self._subsample = sample; the name sample does not resolve in any enclosing
scope, so a NameError is raised and no instance is produced. The ok branch
(the instance state the remaining assignments would build) is unreachable. -/
def w2vInit (window_size : Nat) (subsample : ℚ) (neg_sample hidden_dim : Nat) :
    Except String W2V :=
  if "sample" ∈ w2vInitScope then
    Except.ok ⟨window_size, subsample, neg_sample, hidden_dim, 1 / 1000, false⟩
  else
    Except.error "NameError: name sample is not defined"

/-- Arguments this module passes to the external candidate sampler
tf.nn.fixed_unigram_candidate_sampler inside _build_train. -/
structure SamplerConfig where
  num_true : Nat
  num_sampled : Nat
  unique : Bool
  range_max : Nat
  distortion : ℚ
deriving DecidableEq, Repr

/-- Word2Vec._build_train: hardcodes batch_size = 1000 and vocab_size = 1000,
builds the graph through external tensorflow calls, and when sampling is set
passes (num_true 1, num_sampled = neg_sample, unique, range_max = vocab_size,
distortion 0.75) to the external candidate sampler. The method contains no
validation of neg_sample against vocab_size and raises no configuration
error at the source level. -/
def buildTrain (m : W2V) (sampling : Bool) : Except String (Option SamplerConfig) :=
  let vocab_size : Nat := 1000
  if sampling then
    Except.ok (some ⟨1, m.neg_sample, true, vocab_size, 3 / 4⟩)
  else
    Except.ok none

/-- Word2Vec.train: the first statement reads self._sess, an attribute no
method of the class ever assigns, so it raises AttributeError before the
epoch loop on every instance state the class code can produce. Were a
session present, num_epochs = 0 would skip the loop body entirely (zero
update steps), and any positive epoch count would call
generate_batch(options) with the empty global options dict, which itself
always raises. The returned number counts the performed update steps. -/
def train (m : W2V) (num_epochs : Nat) : Except String Nat :=
  if m.hasSess then
    if num_epochs = 0 then Except.ok 0
    else
      match generate_batch [] 2 100 with
      | Except.error e => Except.error e
      | Except.ok batch => Except.ok (num_epochs * batch.length)
  else
    Except.error "AttributeError: _sess"


/-- Algebraic form of the keep probability: for positive count and threshold,
p = sqrt(t/c + (t/c)²). Used to reason about its size and monotonicity. -/
theorem keepProb_eq_sqrt (c t : ℝ) (hc : 0 < c) (ht : 0 < t) :
    keepProb c t = Real.sqrt (t / c + (t / c) ^ 2) := by
  have hc0 : c ≠ 0 := ne_of_gt hc
  have ht0 : t ≠ 0 := ne_of_gt ht
  have h1 : (0:ℝ) ≤ c / t + 1 := by positivity
  have h2 : (0:ℝ) ≤ t / c := by positivity
  have h3 : t / c + (t / c) ^ 2 = (c / t + 1) * (t / c) ^ 2 := by
    field_simp
    ring
  unfold keepProb
  rw [h3, Real.sqrt_mul h1, Real.sqrt_sq h2]
  ring

/-- The rational decision procedure keepDecision agrees with the comparison
of the draw against the real keep probability, for positive count and
threshold. This justifies using keepDecision as the executable form of the
random() < p test of SampledReader. -/
theorem keepDecision_eq_keepProb (c : Nat) (t u : ℚ) (hc : 0 < c) (ht : 0 < t) :
    keepDecision c t u = true ↔ (u : ℝ) < keepProb (c : ℝ) (t : ℝ) := by
  have hcR : (0:ℝ) < (c : ℝ) := by exact_mod_cast hc
  have htR : (0:ℝ) < (t : ℝ) := by exact_mod_cast ht
  have hp : keepProb (c:ℝ) (t:ℝ) =
      Real.sqrt ((t:ℝ) / (c:ℝ) + ((t:ℝ) / (c:ℝ)) ^ 2) :=
    keepProb_eq_sqrt _ _ hcR htR
  have hnn : 0 ≤ keepProb (c:ℝ) (t:ℝ) := by
    rw [hp]; exact Real.sqrt_nonneg _
  unfold keepDecision
  by_cases hu : u < 0
  · rw [if_pos hu]
    have huR : (u:ℝ) < 0 := by exact_mod_cast hu
    simp only [true_iff]
    linarith
  · rw [if_neg hu]
    push_neg at hu
    have huR : (0:ℝ) ≤ (u:ℝ) := by exact_mod_cast hu
    have hrw : (t:ℝ) / (c:ℝ) + ((t:ℝ) / (c:ℝ)) ^ 2 =
        ((t:ℝ) * (c:ℝ) + (t:ℝ) ^ 2) / (c:ℝ) ^ 2 := by
      field_simp
      ring
    rw [decide_eq_true_eq, hp, Real.lt_sqrt huR, hrw, lt_div_iff₀ (by positivity)]
    constructor
    · intro h
      have : ((u ^ 2 * (c:ℚ) ^ 2 : ℚ) : ℝ) < ((t * (c:ℚ) + t ^ 2 : ℚ) : ℝ) := by
        exact_mod_cast h
      push_cast at this
      linarith
    · intro h
      have : ((u ^ 2 * (c:ℚ) ^ 2 : ℚ) : ℝ) < ((t * (c:ℚ) + t ^ 2 : ℚ) : ℝ) := by
        push_cast
        linarith
      exact_mod_cast this

/-- Claim C1: the source pair generator does not emit the pairs the
specification requires. The brute-force valid pairs of the document
[a, b, c, d, e] at span 2 are exactly the 14 pairs the specification lists,
but generate_words emits 32 pairs on that document, among them the
positional self-pair (a, a). -/
theorem c1_generate_words_diverges_from_spec :
    specPairs ["a", "b", "c", "d", "e"] 2 =
      [("a", "b"), ("a", "c"), ("b", "a"), ("b", "c"), ("b", "d"),
       ("c", "a"), ("c", "b"), ("c", "d"), ("c", "e"),
       ("d", "b"), ("d", "c"), ("d", "e"), ("e", "c"), ("e", "d")] ∧
    (generate_words [["a", "b", "c", "d", "e"]] 2).pairs.length = 32 ∧
    (PyVal.str "a", PyVal.str "a") ∈
      (generate_words [["a", "b", "c", "d", "e"]] 2).pairs := by
  refine ⟨rfl, rfl, ?_⟩
  decide

/-- Claim C4: the very first pair the generator emits on the all-distinct
document [a, b, c, d, e] at span 2 is (a, a); since the document has no
duplicate words, this pair can only come from pairing position 0 with
itself, which the leading-edge loops indeed do (their context range
contains the center index). -/
theorem c4_first_pair_is_self_pair :
    (generate_words [["a", "b", "c", "d", "e"]] 2).pairs.head? =
      some (PyVal.str "a", PyVal.str "a") ∧
    (["a", "b", "c", "d", "e"] : List String).Nodup := by
  exact ⟨rfl, by decide⟩

/-- Claim C6: on a document strictly shorter than the window (one word at
span 2, window size 5), the generator raises IndexError in the leading-edge
loops instead of yielding the valid pairs of the document (of which there
are none). -/
theorem c6_short_document_raises_index_error :
    (generate_words [["a"]] 2).error = some "IndexError" ∧
    specPairs ["a"] 2 = [] :=
  ⟨rfl, rfl⟩

/-- Claim C5: generate_batch raises UnboundLocalError on every input, because
the islice bound it passes is the local name batch read before its own
assignment; no batch is ever produced, so no round-trip law can hold. -/
theorem c5_generate_batch_always_raises (docs : List (List String))
    (span batch_size : Nat) :
    generate_batch docs span batch_size =
      Except.error "UnboundLocalError: local variable batch referenced before assignment" :=
  rfl

/-- Claim C3: a freshly constructed reader is unfitted, yet read succeeds on
it without any NotFitted signal (the source never consults the fitted flag;
the draw minus one lies below every keep probability, so the word passes the
filter), while count_words on the same non-empty corpus raises
AttributeError by assigning to the nonexistent attribute _word2idx — the
fitted state is unreachable for any corpus containing a word. -/
theorem c3_read_unfitted_no_error :
    (readerInit (1 / 1000)).fit = false ∧
    read (readerInit (1 / 1000)) [["a"]] (fun _ => -1) = Except.ok ["a"] ∧
    count_words (readerInit (1 / 1000)) [["a"]] =
      Except.error "AttributeError: _word2idx" :=
  ⟨rfl, rfl, rfl⟩

/-- Claim C2 counterexample: at the default threshold t = 0.001 a word of
count 1 has keep probability sqrt(1001)/1000 < 1, so it is not always kept:
the uniform draw one half exceeds the probability, and the executable filter
decision rejects the word at that draw. -/
theorem c2_count_one_not_always_kept_cex :
    keepProb 1 (1 / 1000) < 1 ∧ ¬ alwaysKept 1 (1 / 1000) ∧
      keepDecision 1 (1 / 1000) (1 / 2) = false := by
  have heq : keepProb 1 (1 / 1000) = Real.sqrt 1001 * (1 / 1000) := by
    unfold keepProb
    norm_num
  have h32 : Real.sqrt 1001 < 32 :=
    (Real.sqrt_lt' (by norm_num)).mpr (by norm_num)
  have hnn : (0:ℝ) ≤ Real.sqrt 1001 := Real.sqrt_nonneg _
  have hlt : keepProb 1 (1 / 1000) < 1 / 2 := by
    rw [heq]; linarith
  refine ⟨by linarith, ?_, ?_⟩
  · intro h
    have := h (1 / 2) (by norm_num) (by norm_num)
    linarith
  · have hiff := keepDecision_eq_keepProb 1 (1 / 1000) (1 / 2)
      (by norm_num) (by norm_num)
    have hcast : ((1 : ℕ) : ℝ) = (1 : ℝ) := by norm_num
    have hcast2 : (((1 : ℚ) / 1000 : ℚ) : ℝ) = (1 / 1000 : ℝ) := by push_cast; ring
    rw [hcast, hcast2] at hiff
    have hno : ¬ (((1 : ℚ) / 2 : ℚ) : ℝ) < keepProb 1 (1 / 1000) := by
      push_cast
      linarith
    rcases hb : keepDecision 1 (1 / 1000) (1 / 2) with _ | _
    · rfl
    · exact absurd (hiff.mp hb) hno

/-- Claim C2 amended: with the formula p = sqrt(c/t + 1)·t/c and no clamp in
the code, a count-1 word is not always kept whenever t + t² < 1 (true in
particular at the default t = 0.001): its keep probability is strictly below
one, so some draw in [0, 1) rejects it. -/
theorem c2_count_one_keep_prob_lt_one (t : ℝ) (h0 : 0 < t)
    (h1 : t + t ^ 2 < 1) :
    keepProb 1 t < 1 ∧ ¬ alwaysKept 1 t := by
  have heq : keepProb 1 t = Real.sqrt (t + t ^ 2) := by
    rw [keepProb_eq_sqrt 1 t one_pos h0]
    norm_num
  have hlt : keepProb 1 t < 1 := by
    rw [heq]
    exact (Real.sqrt_lt' one_pos).mpr (by nlinarith)
  refine ⟨hlt, fun h => ?_⟩
  have hp : 0 ≤ keepProb 1 t := by
    rw [heq]; exact Real.sqrt_nonneg _
  exact absurd (h (keepProb 1 t) hp hlt) (lt_irrefl _)

/-- Claim C2 amended, witness at the default threshold. -/
theorem c2_count_one_keep_prob_lt_one_witness :
    keepProb 1 (1 / 1000) < 1 ∧ ¬ alwaysKept 1 (1 / 1000) :=
  c2_count_one_keep_prob_lt_one (1 / 1000) (by norm_num) (by norm_num)

/-- Claim C7: for a fixed threshold t in (0, 1), the keep probability
p(c) = sqrt(c/t + 1)·t/c is strictly decreasing in the count c over positive
counts. -/
theorem c7_keep_prob_strict_anti (t c1 c2 : ℝ) (ht0 : 0 < t) (_ht1 : t < 1)
    (hc1 : 0 < c1) (h12 : c1 < c2) :
    keepProb c2 t < keepProb c1 t := by
  have hc2 : 0 < c2 := hc1.trans h12
  rw [keepProb_eq_sqrt c1 t hc1 ht0, keepProb_eq_sqrt c2 t hc2 ht0]
  have hdiv : t / c2 < t / c1 := div_lt_div_of_pos_left ht0 hc1 h12
  have hsq : (t / c2) ^ 2 < (t / c1) ^ 2 :=
    pow_lt_pow_left₀ hdiv (by positivity) (by norm_num)
  exact Real.sqrt_lt_sqrt (by positivity) (add_lt_add hdiv hsq)

/-- Claim C7 witness: at threshold one half, the keep probability at count 2
is below the one at count 1. -/
theorem c7_keep_prob_strict_anti_witness :
    keepProb 2 (1 / 2) < keepProb 1 (1 / 2) :=
  c7_keep_prob_strict_anti (1 / 2) 1 2 (by norm_num) (by norm_num)
    (by norm_num) (by norm_num)

/-- Claim C8 counterexample: with a negative-sample count of 2000, at least
the hardcoded vocabulary size 1000, _build_train accepts the configuration
and forwards num_sampled = 2000 to the external candidate sampler without
signalling any error. -/
theorem c8_oversized_neg_sample_accepted_cex :
    buildTrain ⟨5, 1, 2000, 300, 1, false⟩ true =
      Except.ok (some ⟨1, 2000, true, 1000, 3 / 4⟩) ∧ (1000 : Nat) ≤ 2000 :=
  ⟨rfl, by norm_num⟩

/-- Claim C8 amended: _build_train never rejects a configuration; for every
instance state it succeeds, passing the sampler the unchecked count
num_sampled = neg_sample against range_max = 1000 when sampling, and no
sampler configuration otherwise. -/
theorem c8_build_train_never_rejects (m : W2V) (sampling : Bool) :
    buildTrain m sampling =
      Except.ok (if sampling then some ⟨1, m.neg_sample, true, 1000, 3 / 4⟩
        else none) := by
  cases sampling <;> rfl

/-- Claim C9: on every instance state the class code can produce (none of
its methods assigns _sess), train with zero epochs raises AttributeError on
the session lookup instead of returning without error. -/
theorem c9_train_zero_epochs_raises (m : W2V) (h : m.hasSess = false) :
    train m 0 = Except.error "AttributeError: _sess" := by
  unfold train
  rw [h]
  rfl

/-- Claim C9 witness: a concrete instance state without a session attribute. -/
theorem c9_train_zero_epochs_raises_witness :
    train ⟨5, 1, 5, 300, 1, false⟩ 0 = Except.error "AttributeError: _sess" :=
  c9_train_zero_epochs_raises ⟨5, 1, 5, 300, 1, false⟩ rfl

/-- Claim C10: for every combination of constructor arguments, Word2Vec
initialization raises NameError on the unresolvable name sample, so no
instance is ever produced by the public constructor. -/
theorem c10_init_always_raises (window_size : Nat) (subsample : ℚ)
    (neg_sample hidden_dim : Nat) :
    w2vInit window_size subsample neg_sample hidden_dim =
      Except.error "NameError: name sample is not defined" :=
  rfl
